import Mathlib

/-!
Shallow embedding of the DjinnJS Pjax navigation coordinator
(the `Pjax` class), its request-queue bookkeeping, history handling,
link collection, prefetch gating and the service-worker cachebust
handling, together with proofs of the specified properties.

State mutation in the source is modelled by explicit state passing;
JavaScript runtime failures (reading a property of `null`) are
modelled with `Except`; outbound messages, DOM writes and calls into
the transition runner are modelled as an emitted list of effects.
-/

set_option maxHeartbeats 1000000

namespace DjinnJS

/-- JavaScript runtime failures the embedded methods can raise.
`nullDeref` models a TypeError thrown by reading a property of `null`
(or by indexing a `null` regex-match result). -/
inductive JsError where
  | nullDeref
deriving DecidableEq

/-- History manipulation mode of a navigation request (`"push"` or
`"replace"` in the source). -/
inductive HistoryMode where
  | push
  | replace
deriving DecidableEq

/-- One queued navigation attempt, mirroring the `NavigaitonRequest`
interface of the source (the source's own spelling is kept).
`body` and `title` start out absent and are filled in when the fetch
response is reconciled. -/
structure NavigaitonRequest where
  body : Option String
  title : Option String
  url : String
  history : HistoryMode
  requestUid : String
  transition : Option String
  transitionData : Option String
  targetSelector : Option String
deriving DecidableEq

/-- The coordinator state (`PjaxState` plus the queue field of the
`Pjax` class): the single active request identifier and the
navigation request queue. -/
structure PjaxState where
  activeRequestUid : Option String
  navigationRequestQueue : List NavigaitonRequest
deriving DecidableEq

/-- A DOM element as far as the coordinator inspects it: its tag name,
its optional `pjax-id` attribute and its inner HTML. -/
structure Element where
  tag : String
  pjaxId : Option String
  innerHTML : String
deriving DecidableEq

/-- A parsed HTML document: a title and its elements in document order. -/
structure HTMLDoc where
  title : String
  elements : List Element
deriving DecidableEq

/-- The two selector shapes the coordinator ever builds: the plain
primary content region selector `main`, or the attribute selector
`[pjax-id="x"]`. -/
inductive Selector where
  | main
  | pjaxId (id : String)
deriving DecidableEq

/-- Whether an element matches a selector. -/
def matchesSelector (sel : Selector) (el : Element) : Bool :=
  match sel with
  | Selector.main => el.tag == "main"
  | Selector.pjaxId s => el.pjaxId == some s

/-- `querySelector`: the first element of a document matching the
selector, or `none`. -/
def querySelector (doc : List Element) (sel : Selector) : Option Element :=
  doc.find? (matchesSelector sel)

/-- Observable effects of the coordinator: messages posted to the web
worker, full browser navigations, hash updates, console logging, the
`parse` broadcast to the runtime, and the hand-off to the transition
runner (which on resolution finalizes history and remounting). -/
inductive Effect where
  | startPageTransition
  | endPageTransition
  | workerPjax (requestId : String) (url : String)
  | fullNavigation (url : String)
  | setHash (hash : String)
  | logError (msg : String)
  | parseMessage (body : String) (requestUid : String)
  | transition (selector : Selector) (body : Option String)
      (transitionName : Option String) (transitionData : Option String)
deriving DecidableEq

/-- `Pjax.getNavigaitonRequest` (source spelling kept): linear scan
returning the first queue entry whose `requestUid` matches, else
`null`. -/
def getNavigaitonRequest (queue : List NavigaitonRequest) (requestId : String) :
    Option NavigaitonRequest :=
  match queue with
  | [] => none
  | r :: rest =>
    if r.requestUid = requestId then some r
    else getNavigaitonRequest rest requestId

/-- `Pjax.removeNavigationRequest`: splices out the first queue entry
whose `requestUid` matches (the loop breaks after the first splice). -/
def removeNavigationRequest (queue : List NavigaitonRequest) (requestId : String) :
    List NavigaitonRequest :=
  match queue with
  | [] => []
  | r :: rest =>
    if r.requestUid = requestId then rest
    else r :: removeNavigationRequest rest requestId

/-- In-place mutation of the queued request found by
`getNavigaitonRequest`: the first entry with the given uid gets its
`body` and `title` fields filled in. -/
def setRequestBodyTitle (queue : List NavigaitonRequest) (requestId bodyHTML title : String) :
    List NavigaitonRequest :=
  match queue with
  | [] => []
  | r :: rest =>
    if r.requestUid = requestId then
      { r with body := some bodyHTML, title := some title } :: rest
    else r :: setRequestBodyTitle rest requestId bodyHTML title

/-- Model of `url.match(/\x23.*\x2fg)[0].replace("#", "")`: the text
after the first `#` of the URL, or `none` when the URL has no hash
(in which case the source's indexing of the `null` match throws). -/
def urlHashMatch (url : String) : Option String :=
  match url.toList.dropWhile (fun c => c != '#') with
  | [] => none
  | _ :: rest => some (String.mk rest)

/-- The console message logged for a failed fetch. -/
def fetchFailMsg (url : String) (error : Option String) : String :=
  "Failed to fetch page: " ++ url ++ ". Server responded with: " ++ error.getD "undefined"

/-- Selector resolution during response reconciliation
(`handlePjaxResponse`, target-region block): a non-null target
selector becomes `[pjax-id=target]`; otherwise the current document's
`main` is looked up (reading its attribute throws on `null`) and its
`pjax-id`, when present, upgrades the selector. Returns the resolved
selector together with `currentMain`. -/
def resolveReconcile (doc : List Element) (req : NavigaitonRequest) :
    Except JsError (Selector × Option Element) :=
  match req.targetSelector with
  | some t => Except.ok (Selector.pjaxId t, querySelector doc (Selector.pjaxId t))
  | none =>
    match querySelector doc Selector.main with
    | none => Except.error JsError.nullDeref
    | some cm =>
      match cm.pjaxId with
      | some mainId => Except.ok (Selector.pjaxId mainId, some cm)
      | none => Except.ok (Selector.main, some cm)

/-- Selector resolution at content-swap time (`swapPjaxContent`): a
non-null target selector becomes `[pjax-id=target]`, otherwise the
plain `main` selector — the `pjax-id` of the primary region is not
re-inherited here. -/
def resolveSwapSelector (req : NavigaitonRequest) : Selector :=
  match req.targetSelector with
  | some t => Selector.pjaxId t
  | none => Selector.main

/-- The empty detached document used when the worker supplied no body. -/
def emptyHTMLDoc : HTMLDoc := { title := "", elements := [] }

/-- `Pjax.handlePjaxResponse`: reconciles a fetch reply against the
active request identifier. `doc` is the current `document.body`
contents; `body` is the reply body already parsed into a detached
document. -/
def handlePjaxResponse (doc : List Element) (st : PjaxState)
    (requestId status url : String) (body : Option HTMLDoc) (error : Option String) :
    Except JsError (PjaxState × List Effect) :=
  let request := getNavigaitonRequest st.navigationRequestQueue requestId
  if some requestId = st.activeRequestUid then
    if status = "external" then
      Except.ok (st, [Effect.fullNavigation url])
    else if status = "hash-change" then
      match urlHashMatch url with
      | some h => Except.ok (st, [Effect.setHash h])
      | none => Except.error JsError.nullDeref
    else if status = "ok" then
      let tempDocument := body.getD emptyHTMLDoc
      match request with
      | none => Except.error JsError.nullDeref
      | some req =>
        match resolveReconcile doc req with
        | Except.error e => Except.error e
        | Except.ok (selector, currentMain) =>
          match querySelector tempDocument.elements selector, currentMain with
          | some incomingMain, some _ =>
            Except.ok
              ({ st with
                  navigationRequestQueue :=
                    setRequestBodyTitle st.navigationRequestQueue requestId
                      incomingMain.innerHTML tempDocument.title },
               [Effect.parseMessage incomingMain.innerHTML requestId])
          | _, _ =>
            Except.ok (st,
              [Effect.logError "Failed to find matching elements.",
               Effect.fullNavigation url])
    else
      Except.ok (st, [Effect.logError (fetchFailMsg url error), Effect.fullNavigation url])
  else
    match request with
    | none => Except.error JsError.nullDeref
    | some req =>
      Except.ok
        ({ st with
            navigationRequestQueue :=
              removeNavigationRequest st.navigationRequestQueue req.requestUid },
         if status ≠ "ok" then [Effect.logError (fetchFailMsg url error)] else [])

/-- `Pjax.swapPjaxContent`: looks the request up by uid (reading a
field of the `null` result throws), runs the transition only when the
request is still the active one, and removes the request from the
queue in either case. -/
def swapPjaxContent (st : PjaxState) (requestUid : String) :
    Except JsError (PjaxState × List Effect) :=
  match getNavigaitonRequest st.navigationRequestQueue requestUid with
  | none => Except.error JsError.nullDeref
  | some request =>
    let effects :=
      if some request.requestUid = st.activeRequestUid then
        [Effect.endPageTransition,
         Effect.transition (resolveSwapSelector request) request.body
           request.transition request.transitionData]
      else []
    Except.ok
      ({ st with
          navigationRequestQueue :=
            removeNavigationRequest st.navigationRequestQueue request.requestUid },
       effects)

/-- `Pjax.navigate` (the `load` handler): creates a fresh
`NavigaitonRequest`, marks it active, enqueues it and posts the fetch
message to the worker. The fresh uid is passed in explicitly. -/
def navigate (st : PjaxState) (requestUid url : String)
    (transition transitionData : Option String) (history : HistoryMode)
    (targetEl : Option String) : PjaxState × List Effect :=
  let navigationRequest : NavigaitonRequest :=
    { body := none, title := none, url := url, history := history,
      requestUid := requestUid, transition := transition,
      transitionData := transitionData, targetSelector := targetEl }
  ({ activeRequestUid := some requestUid,
     navigationRequestQueue := st.navigationRequestQueue ++ [navigationRequest] },
   [Effect.startPageTransition, Effect.workerPjax requestUid url])

/-- The coordinator events relevant to the navigation lifecycle:
a `load` call, a fetch reply from the worker, and a `css-ready`
message. -/
inductive PjaxEvent where
  | load (requestUid url : String) (transition transitionData : Option String)
      (history : HistoryMode) (target : Option String)
  | workerReply (requestId status url : String) (body : Option HTMLDoc)
      (error : Option String)
  | cssReady (requestUid : String)

/-- One step of the coordinator under an event, against the current
document `doc`. -/
def step (doc : List Element) (st : PjaxState) (ev : PjaxEvent) :
    Except JsError (PjaxState × List Effect) :=
  match ev with
  | PjaxEvent.load uid url t td h tgt => Except.ok (navigate st uid url t td h tgt)
  | PjaxEvent.workerReply rid status url body err =>
      handlePjaxResponse doc st rid status url body err
  | PjaxEvent.cssReady uid => swapPjaxContent st uid

/-- An anchor element as far as `collectLinks` inspects it. The
`clickListeners` field counts attached click interceptors. -/
structure Anchor where
  hasHref : Bool
  pjaxTracked : Bool
  noPjaxAttr : Bool
  noPjaxClass : Bool
  hasTarget : Bool
  clickListeners : Nat
deriving DecidableEq

/-- Eligibility per the source selector
`a[href]:not([pjax-tracked]):not([no-pjax]):not([target]):not(.no-pjax)`. -/
def anchorEligible (a : Anchor) : Bool :=
  a.hasHref && !a.pjaxTracked && !a.noPjaxAttr && !a.hasTarget && !a.noPjaxClass

/-- The in-place update applied to each collected anchor: mark it
tracked and attach one click interceptor. -/
def trackAnchor (a : Anchor) : Anchor :=
  if anchorEligible a then
    { a with pjaxTracked := true, clickListeners := a.clickListeners + 1 }
  else a

/-- `Pjax.collectLinks`: every eligible anchor of the document is
marked `pjax-tracked` and gets a click interceptor; the rest of the
document is untouched. -/
def collectLinks (docAnchors : List Anchor) : List Anchor :=
  docAnchors.map trackAnchor

/-- A navigation link as far as `prefetchLinks` inspects it. The two
`:not(prevent-pjax):not(no-transition)` clauses of the source are tag
selectors, so they never exclude an `a` element and need no fields. -/
structure PrefetchLink where
  href : String
  hasHref : Bool
  inHeader : Bool
  inNav : Bool
  hasTarget : Bool
  pjaxPrefetched : Bool
deriving DecidableEq

/-- Eligibility per the source selector
`a[href]:not([target]):not([pjax-prefetched])...`. -/
def prefetchEligible (l : PrefetchLink) : Bool :=
  l.hasHref && !l.hasTarget && !l.pjaxPrefetched

/-- Environment signals consulted by `prefetchLinks`. -/
inductive NetworkType where
  | g4
  | g3
  | g2
  | slow2g
deriving DecidableEq

/-- The environment state read by `prefetchLinks`: effective connection
type, the data-saver preference, and whether `serviceWorker` exists in
`navigator`. -/
structure PrefetchEnv where
  connection : NetworkType
  dataSaver : Bool
  hasServiceWorker : Bool
deriving DecidableEq

/-- Result of a `prefetchLinks` run: the updated document links, the
`prefetch` messages posted to the worker (each a batch of URLs), and
the hrefs of links placed under intersection observation. -/
structure PrefetchResult where
  links : List PrefetchLink
  messages : List (List String)
  observed : List String
deriving DecidableEq

/-- `Pjax.prefetchLinks`: bail out entirely on 2g-class connections,
without a service worker, or under data saver; otherwise collect and
mark header links then nav links and post their URLs; then, unless the
connection is 3g, place all remaining eligible links under
intersection observation. -/
def prefetchLinks (env : PrefetchEnv) (links : List PrefetchLink) : PrefetchResult :=
  if env.connection = NetworkType.g2 ∨ env.connection = NetworkType.slow2g ∨
      env.hasServiceWorker = false ∨ env.dataSaver = true then
    { links := links, messages := [], observed := [] }
  else
    let headerUrls := ((links.filter fun l => l.inHeader && prefetchEligible l).map
      fun l => l.href)
    let links1 := links.map fun l =>
      if l.inHeader && prefetchEligible l then { l with pjaxPrefetched := true } else l
    let navUrls := ((links1.filter fun l => l.inNav && prefetchEligible l).map
      fun l => l.href)
    let links2 := links1.map fun l =>
      if l.inNav && prefetchEligible l then { l with pjaxPrefetched := true } else l
    let urls := headerUrls ++ navUrls
    if env.connection = NetworkType.g3 then
      { links := links2, messages := [urls], observed := [] }
    else
      let observedUrls := ((links2.filter fun l => prefetchEligible l).map fun l => l.href)
      let links3 := links2.map fun l =>
        if prefetchEligible l then { l with pjaxPrefetched := true } else l
      { links := links3, messages := [urls], observed := observedUrls }

/-- Directives the coordinator posts to the service worker. -/
inductive SWDirective where
  | clearContentCache
deriving DecidableEq

/-- The persisted counters read and written by the `cachebust` message
handler: the session-scoped prompt counter and maximum, and the
origin-scoped content-cache timestamp (milliseconds). -/
structure CachebustState where
  prompts : Nat
  maxPrompts : Nat
  contentCache : Nat
deriving DecidableEq

/-- The prompt-counter branch of the `cachebust` handler: when the
stored prompt count has reached the advertised maximum, reset it to
zero and issue a `clear-content-cache` directive. -/
def cachebustPromptPhase (prompts maxCount : Nat) : Nat × List SWDirective :=
  if prompts ≥ maxCount then (0, [SWDirective.clearContentCache])
  else (prompts, [])

/-- The timestamp branch of the `cachebust` handler: when the content
cache is older than the advertised expiry window (days), stamp it with
the current time and issue a `clear-content-cache` directive. The
difference is computed over the integers as in JavaScript. -/
def cachebustCachePhase (contentCache now expires : Nat) : Nat × List SWDirective :=
  if (now : Int) - (contentCache : Int) ≥ (expires : Int) * 24 * 60 * 60 * 1000 then
    (now, [SWDirective.clearContentCache])
  else (contentCache, [])

/-- The `cachebust` case of `Pjax.handleServiceWorkerMessage`: store
the advertised maximum, run the prompt-counter branch, then the
cache-timestamp branch; directives are posted in that order. -/
def handleCachebust (st : CachebustState) (maxCount expires now : Nat) :
    CachebustState × List SWDirective :=
  let promptResult := cachebustPromptPhase st.prompts maxCount
  let cacheResult := cachebustCachePhase st.contentCache now expires
  ({ prompts := promptResult.1, maxPrompts := maxCount, contentCache := cacheResult.1 },
   promptResult.2 ++ cacheResult.2)

/-- One browser history entry: the state object (which the source
always populates with the URL), the title argument and the entry URL. -/
structure HistoryEntry where
  stateUrl : String
  title : String
  url : String
deriving DecidableEq

/-- `Pjax.updateHistory` over the Web History API modelled as a stack
whose head is the current entry: `replace` replaces the current entry
(`history.replaceState`), anything else pushes a new one
(`history.pushState`); both store `{ url }` as the state object. -/
def updateHistory (hist : List HistoryEntry) (title url : String)
    (history : HistoryMode) : List HistoryEntry :=
  if history = HistoryMode.replace then
    { stateUrl := url, title := title, url := url } :: hist.tail
  else
    { stateUrl := url, title := title, url := url } :: hist

/-- A minimal navigation request used as a concrete sample value. -/
def sampleReq (uid url : String) : NavigaitonRequest :=
  { body := none, title := none, url := url, history := HistoryMode.push,
    requestUid := uid, transition := none, transitionData := none,
    targetSelector := none }

/-- A fully eligible sample anchor with no listeners attached. -/
def sampleAnchor : Anchor :=
  { hasHref := true, pjaxTracked := false, noPjaxAttr := false,
    noPjaxClass := false, hasTarget := false, clickListeners := 0 }

/-- A sample header navigation link not yet prefetched. -/
def sampleLink : PrefetchLink :=
  { href := "/about", hasHref := true, inHeader := true, inNav := false,
    hasTarget := false, pjaxPrefetched := false }

/-- The entry returned by `getNavigaitonRequest` carries the uid it was
looked up by. -/
theorem getNav_requestUid {q : List NavigaitonRequest} {uid : String}
    {r : NavigaitonRequest} (h : getNavigaitonRequest q uid = some r) :
    r.requestUid = uid := by
  induction q with
  | nil => simp [getNavigaitonRequest] at h
  | cons a rest ih =>
    by_cases hc : a.requestUid = uid
    · simp [getNavigaitonRequest, hc] at h
      rw [← h]
      exact hc
    · simp [getNavigaitonRequest, hc] at h
      exact ih h

/-- Filling in `body` and `title` of a queued request does not change
the multiset of request uids in the queue. -/
theorem setRequestBodyTitle_uidmap (q : List NavigaitonRequest) (uid b t : String) :
    (setRequestBodyTitle q uid b t).map (fun r => r.requestUid)
      = q.map (fun r => r.requestUid) := by
  induction q with
  | nil => rfl
  | cons a rest ih =>
    by_cases hc : a.requestUid = uid
    · simp [setRequestBodyTitle, hc]
    · simp [setRequestBodyTitle, hc, ih]

/-- The stale branch of `handlePjaxResponse`: a reply whose uid is not
the active one only removes its queue entry and at most logs. -/
theorem handle_stale_spec {doc : List Element} {st : PjaxState}
    {rid status url : String} {body : Option HTMLDoc} {err : Option String}
    {st' : PjaxState} {effs : List Effect}
    (hne : ¬ some rid = st.activeRequestUid)
    (h : handlePjaxResponse doc st rid status url body err = Except.ok (st', effs)) :
    st'.activeRequestUid = st.activeRequestUid ∧
    st'.navigationRequestQueue = removeNavigationRequest st.navigationRequestQueue rid ∧
    ∀ e ∈ effs, ∃ m, e = Effect.logError m := by
  unfold handlePjaxResponse at h
  rw [if_neg hne] at h
  cases hget : getNavigaitonRequest st.navigationRequestQueue rid with
  | none => rw [hget] at h; exact absurd h (by simp)
  | some req =>
    rw [hget] at h
    simp only [Except.ok.injEq, Prod.mk.injEq] at h
    obtain ⟨h1, h2⟩ := h
    subst h1
    subst h2
    refine ⟨rfl, ?_, ?_⟩
    · rw [getNav_requestUid hget]
    · intro e he
      by_cases hok : status ≠ "ok"
      · rw [if_pos hok] at he
        simp at he
        exact ⟨_, he⟩
      · rw [if_neg hok] at he
        simp at he

/-- Specification of `swapPjaxContent` on a uid still present in the
queue: the entry is removed, and the transition runs exactly when the
uid is still the active one. -/
theorem swap_spec {st : PjaxState} {uid : String} {st' : PjaxState}
    {effs : List Effect}
    (h : swapPjaxContent st uid = Except.ok (st', effs)) :
    ∃ request, getNavigaitonRequest st.navigationRequestQueue uid = some request ∧
      st'.activeRequestUid = st.activeRequestUid ∧
      st'.navigationRequestQueue = removeNavigationRequest st.navigationRequestQueue uid ∧
      ((some uid = st.activeRequestUid ∧
          effs = [Effect.endPageTransition,
                  Effect.transition (resolveSwapSelector request) request.body
                    request.transition request.transitionData]) ∨
       (¬ some uid = st.activeRequestUid ∧ effs = [])) := by
  unfold swapPjaxContent at h
  cases hget : getNavigaitonRequest st.navigationRequestQueue uid with
  | none => rw [hget] at h; exact absurd h (by simp)
  | some request =>
    rw [hget] at h
    simp only [Except.ok.injEq, Prod.mk.injEq] at h
    obtain ⟨h1, h2⟩ := h
    rw [getNav_requestUid hget] at h1 h2
    subst h1
    refine ⟨request, rfl, rfl, rfl, ?_⟩
    by_cases hact : some uid = st.activeRequestUid
    · left
      rw [if_pos hact] at h2
      exact ⟨hact, h2.symm⟩
    · right
      rw [if_neg hact] at h2
      exact ⟨hact, h2.symm⟩

/-- `handlePjaxResponse` never hands anything to the transition runner;
swaps happen only through `swapPjaxContent`. -/
theorem handle_no_transition {doc : List Element} {st : PjaxState}
    {rid status url : String} {body : Option HTMLDoc} {err : Option String}
    {st' : PjaxState} {effs : List Effect}
    (h : handlePjaxResponse doc st rid status url body err = Except.ok (st', effs))
    (sel : Selector) (b t td : Option String) :
    Effect.transition sel b t td ∉ effs := by
  intro hmem
  simp only [handlePjaxResponse] at h
  repeat' split at h
  all_goals
    first
      | exact Except.noConfusion h
      | (simp only [Except.ok.injEq, Prod.mk.injEq] at h
         obtain ⟨h1, h2⟩ := h
         subst h2
         simp at hmem)

/-- The active branch of `handlePjaxResponse` never removes a queue
entry: the uid multiset is preserved, and whenever the status is not
`ok` the queue is untouched. -/
theorem handle_active_spec {doc : List Element} {st : PjaxState}
    {rid status url : String} {body : Option HTMLDoc} {err : Option String}
    {st' : PjaxState} {effs : List Effect}
    (hac : some rid = st.activeRequestUid)
    (h : handlePjaxResponse doc st rid status url body err = Except.ok (st', effs)) :
    st'.activeRequestUid = st.activeRequestUid ∧
    st'.navigationRequestQueue.map (fun r => r.requestUid)
      = st.navigationRequestQueue.map (fun r => r.requestUid) ∧
    (status ≠ "ok" → st'.navigationRequestQueue = st.navigationRequestQueue) := by
  simp only [handlePjaxResponse] at h
  rw [if_pos hac] at h
  repeat' split at h
  all_goals
    first
      | exact Except.noConfusion h
      | (simp only [Except.ok.injEq, Prod.mk.injEq] at h
         obtain ⟨h1, h2⟩ := h
         rw [← h1]
         refine ⟨rfl, ?_, ?_⟩
         · first
             | rfl
             | exact setRequestBodyTitle_uidmap _ _ _ _
         · first
             | (intro _; rfl)
             | (intro hne; exact absurd (by assumption) hne))

/-- Tracking an anchor twice is the same as tracking it once: a tracked
anchor is no longer eligible. -/
theorem trackAnchor_idem (a : Anchor) : trackAnchor (trackAnchor a) = trackAnchor a := by
  unfold trackAnchor
  by_cases h : anchorEligible a = true
  · rw [if_pos h]
    have h2 : anchorEligible
        { a with pjaxTracked := true, clickListeners := a.clickListeners + 1 } = false := by
      simp [anchorEligible]
    rw [if_neg (by rw [h2]; exact Bool.false_ne_true)]
  · rw [if_neg h]
    rw [if_neg h]

/-- `collectLinks` is idempotent on the whole document. -/
theorem collectLinks_idem (d : List Anchor) :
    collectLinks (collectLinks d) = collectLinks d := by
  unfold collectLinks
  rw [List.map_map]
  exact List.map_congr_left (fun a _ => trackAnchor_idem a)

/-- Iterating `collectLinks` at least once collapses to a single call. -/
theorem collectLinks_iterate (d : List Anchor) (n : Nat) (hn : 1 ≤ n) :
    collectLinks^[n] d = collectLinks d := by
  induction n with
  | zero => exact absurd hn (by simp)
  | succ m ih =>
    rcases Nat.eq_zero_or_pos m with hm | hm
    · subst hm
      simp
    · rw [Function.iterate_succ_apply', ih hm, collectLinks_idem]

/-- C10: `removeNavigationRequest` removes at most one entry — the
first whose `requestUid` matches — leaving every other entry and their
relative order unchanged, and `getNavigaitonRequest` returns the first
matching entry (or `none` when no entry matches, in which case the
queue is also left whole). Both are pure functions of the queue. -/
theorem c10_queue_ops : ∀ (q : List NavigaitonRequest) (uid : String),
    (∀ r, getNavigaitonRequest q uid = some r →
       r.requestUid = uid ∧
       ∃ pre post, q = pre ++ r :: post ∧ (∀ x ∈ pre, x.requestUid ≠ uid) ∧
         removeNavigationRequest q uid = pre ++ post)
    ∧ (getNavigaitonRequest q uid = none →
       (∀ x ∈ q, x.requestUid ≠ uid) ∧ removeNavigationRequest q uid = q) := by
  intro q uid
  induction q with
  | nil =>
    constructor
    · intro r h
      simp [getNavigaitonRequest] at h
    · intro _
      exact ⟨by simp, rfl⟩
  | cons a rest ih =>
    by_cases hc : a.requestUid = uid
    · constructor
      · intro r h
        simp only [getNavigaitonRequest, if_pos hc, Option.some.injEq] at h
        subst h
        refine ⟨hc, [], rest, rfl, by simp, ?_⟩
        simp only [removeNavigationRequest, if_pos hc]
        rfl
      · intro h
        simp [getNavigaitonRequest, if_pos hc] at h
    · constructor
      · intro r h
        simp only [getNavigaitonRequest, if_neg hc] at h
        obtain ⟨hr, pre, post, hq, hpre, hrem⟩ := ih.1 r h
        refine ⟨hr, a :: pre, post, by rw [List.cons_append, hq], ?_, ?_⟩
        · intro x hx
          rcases List.mem_cons.mp hx with hxa | hxp
          · rw [hxa]; exact hc
          · exact hpre x hxp
        · simp only [removeNavigationRequest, if_neg hc, hrem]
          rfl
      · intro h
        simp only [getNavigaitonRequest, if_neg hc] at h
        obtain ⟨hall, hrem⟩ := ih.2 h
        constructor
        · intro x hx
          rcases List.mem_cons.mp hx with hxa | hxp
          · rw [hxa]; exact hc
          · exact hall x hxp
        · simp only [removeNavigationRequest, if_neg hc, hrem]

/-- C10 witness: the spec applied to the concrete queue
`[sampleReq "a" "/a", sampleReq "b" "/b"]` and uid `"b"`. -/
theorem c10_queue_ops_witness :
    (sampleReq "b" "/b").requestUid = "b" ∧
    ∃ pre post,
      [sampleReq "a" "/a", sampleReq "b" "/b"] = pre ++ sampleReq "b" "/b" :: post ∧
      (∀ x ∈ pre, x.requestUid ≠ "b") ∧
      removeNavigationRequest [sampleReq "a" "/a", sampleReq "b" "/b"] "b" = pre ++ post :=
  (c10_queue_ops [sampleReq "a" "/a", sampleReq "b" "/b"] "b").1 (sampleReq "b" "/b") rfl

/-- C1: over any sequence of overlapping `load` calls and any reply
arrival order, (i) `navigate` makes the freshly issued uid the active
one; (ii) a worker reply carrying a non-active uid only removes its
queue entry, leaves `activeRequestUid` untouched and emits at most a
log message; (iii) a content swap — a hand-off to the transition
runner — can only be emitted by a `css-ready` step whose uid equals
the current `activeRequestUid`. -/
theorem c1_last_request_wins :
    (∀ (st : PjaxState) (uid url : String) (t td : Option String) (hm : HistoryMode)
        (tgt : Option String),
        ((navigate st uid url t td hm tgt).1).activeRequestUid = some uid)
    ∧ (∀ (doc : List Element) (st : PjaxState) (rid status url : String)
        (body : Option HTMLDoc) (err : Option String) (st' : PjaxState)
        (effs : List Effect),
        handlePjaxResponse doc st rid status url body err = Except.ok (st', effs) →
        ¬ some rid = st.activeRequestUid →
        st'.activeRequestUid = st.activeRequestUid ∧
        st'.navigationRequestQueue = removeNavigationRequest st.navigationRequestQueue rid ∧
        ∀ e ∈ effs, ∃ m, e = Effect.logError m)
    ∧ (∀ (doc : List Element) (st : PjaxState) (ev : PjaxEvent) (st' : PjaxState)
        (effs : List Effect) (sel : Selector) (b t td : Option String),
        step doc st ev = Except.ok (st', effs) →
        Effect.transition sel b t td ∈ effs →
        ∃ uid, ev = PjaxEvent.cssReady uid ∧ some uid = st.activeRequestUid) := by
  refine ⟨?_, ?_, ?_⟩
  · intro st uid url t td hm tgt
    rfl
  · intro doc st rid status url body err st' effs h hne
    exact handle_stale_spec hne h
  · intro doc st ev st' effs sel b t td h hmem
    cases ev with
    | load uid url t2 td2 hm tgt =>
      simp only [step, navigate, Except.ok.injEq, Prod.mk.injEq] at h
      obtain ⟨h1, h2⟩ := h
      subst h2
      simp at hmem
    | workerReply rid status url2 body2 err2 =>
      simp only [step] at h
      exact absurd hmem (handle_no_transition h sel b t td)
    | cssReady uid =>
      simp only [step] at h
      obtain ⟨request, hget, hact, hq, hcase⟩ := swap_spec h
      rcases hcase with ⟨ha, heff⟩ | ⟨ha, heff⟩
      · exact ⟨uid, rfl, ha⟩
      · rw [heff] at hmem
        simp at hmem

/-- C1 witness: the three conjuncts applied at concrete inputs — a
fresh `load`, a stale failed reply reconciled against an active uid
`"b"`, and a swap of the active request `"a"`. -/
theorem c1_last_request_wins_witness :
    ((navigate ⟨none, []⟩ "a" "/a" none none HistoryMode.push none).1).activeRequestUid
        = some "a"
    ∧ ((⟨some "b", [sampleReq "b" "/b"]⟩ : PjaxState).activeRequestUid
          = (⟨some "b", [sampleReq "a" "/a", sampleReq "b" "/b"]⟩ : PjaxState).activeRequestUid
       ∧ (⟨some "b", [sampleReq "b" "/b"]⟩ : PjaxState).navigationRequestQueue
          = removeNavigationRequest [sampleReq "a" "/a", sampleReq "b" "/b"] "a"
       ∧ ∀ e ∈ [Effect.logError (fetchFailMsg "/a" (some "500"))], ∃ m, e = Effect.logError m)
    ∧ (∃ uid, PjaxEvent.cssReady "a" = PjaxEvent.cssReady uid
         ∧ some uid = (⟨some "a",
             [{ sampleReq "a" "/a" with body := some "NEW", title := some "T" }]⟩
               : PjaxState).activeRequestUid) :=
  ⟨c1_last_request_wins.1 ⟨none, []⟩ "a" "/a" none none HistoryMode.push none,
   c1_last_request_wins.2.1 [] ⟨some "b", [sampleReq "a" "/a", sampleReq "b" "/b"]⟩
     "a" "error" "/a" none (some "500") ⟨some "b", [sampleReq "b" "/b"]⟩
     [Effect.logError (fetchFailMsg "/a" (some "500"))] rfl (by decide),
   c1_last_request_wins.2.2 []
     ⟨some "a", [{ sampleReq "a" "/a" with body := some "NEW", title := some "T" }]⟩
     (PjaxEvent.cssReady "a") ⟨some "a", []⟩
     [Effect.endPageTransition, Effect.transition Selector.main (some "NEW") none none]
     Selector.main (some "NEW") none none rfl (by simp)⟩

/-- C2 (code-bug exhibit): a `css-ready` message whose request uid is
no longer in the navigation request queue makes `swapPjaxContent` read
`requestUid` off the `null` lookup result and throw, instead of
falling through safely as the spec requires. -/
theorem c2_missing_request_throws :
    swapPjaxContent ⟨some "gone", []⟩ "gone" = Except.error JsError.nullDeref := rfl

/-- C3 counterexample: a `load` whose reply is an active `hash-change`
ends its lifetime with the request still in the queue — it is removed
zero times, not exactly once. -/
theorem c3_hash_change_leaves_queue :
    handlePjaxResponse [] ⟨some "a", [sampleReq "a" "/page#sec"]⟩ "a" "hash-change"
        "/page#sec" none none
      = Except.ok (⟨some "a", [sampleReq "a" "/page#sec"]⟩, [Effect.setHash "sec"])
    ∧ (⟨some "a", [sampleReq "a" "/page#sec"]⟩ : PjaxState).navigationRequestQueue ≠ [] :=
  ⟨rfl, by decide⟩

/-- C3 amended: a queue entry is removed exactly once when its reply is
reconciled as stale or when `css-ready` reaches `swapPjaxContent`; on
every active-path reply outcome (external redirect, hash-only change,
region mismatch, fetch failure, and successful reconciliation alike)
`handlePjaxResponse` removes nothing — the queue's uids are preserved,
and for non-`ok` statuses the queue is untouched, so a hash-only
change leaves its entry queued forever. -/
theorem c3_removal_amended :
    (∀ (doc : List Element) (st : PjaxState) (rid status url : String)
        (body : Option HTMLDoc) (err : Option String) (st' : PjaxState)
        (effs : List Effect),
        handlePjaxResponse doc st rid status url body err = Except.ok (st', effs) →
        ¬ some rid = st.activeRequestUid →
        st'.navigationRequestQueue = removeNavigationRequest st.navigationRequestQueue rid)
    ∧ (∀ (st : PjaxState) (uid : String) (st' : PjaxState) (effs : List Effect),
        swapPjaxContent st uid = Except.ok (st', effs) →
        st'.navigationRequestQueue = removeNavigationRequest st.navigationRequestQueue uid)
    ∧ (∀ (doc : List Element) (st : PjaxState) (rid status url : String)
        (body : Option HTMLDoc) (err : Option String) (st' : PjaxState)
        (effs : List Effect),
        handlePjaxResponse doc st rid status url body err = Except.ok (st', effs) →
        some rid = st.activeRequestUid →
        st'.navigationRequestQueue.map (fun r => r.requestUid)
          = st.navigationRequestQueue.map (fun r => r.requestUid)
        ∧ (status ≠ "ok" → st'.navigationRequestQueue = st.navigationRequestQueue)) := by
  refine ⟨?_, ?_, ?_⟩
  · intro doc st rid status url body err st' effs h hne
    exact (handle_stale_spec hne h).2.1
  · intro st uid st' effs h
    obtain ⟨request, hget, hact, hq, hcase⟩ := swap_spec h
    exact hq
  · intro doc st rid status url body err st' effs h hac
    exact (handle_active_spec hac h).2

/-- C3 amended witness: the three conjuncts at concrete inputs — a
stale reply, a swap, and an active hash-change reply. -/
theorem c3_removal_amended_witness :
    (⟨some "b", [sampleReq "b" "/b"]⟩ : PjaxState).navigationRequestQueue
        = removeNavigationRequest [sampleReq "a" "/a", sampleReq "b" "/b"] "a"
    ∧ (⟨some "a", [] ⟩ : PjaxState).navigationRequestQueue
        = removeNavigationRequest [sampleReq "a" "/a"] "a"
    ∧ ([sampleReq "a" "/page#sec"].map (fun r => r.requestUid)
          = [sampleReq "a" "/page#sec"].map (fun r => r.requestUid)
       ∧ ("hash-change" ≠ "ok" →
          [sampleReq "a" "/page#sec"] = [sampleReq "a" "/page#sec"])) :=
  ⟨c3_removal_amended.1 [] ⟨some "b", [sampleReq "a" "/a", sampleReq "b" "/b"]⟩
     "a" "error" "/a" none (some "500") ⟨some "b", [sampleReq "b" "/b"]⟩
     [Effect.logError (fetchFailMsg "/a" (some "500"))] rfl (by decide),
   c3_removal_amended.2.1 ⟨some "x", [sampleReq "a" "/a"]⟩ "a" ⟨some "x", []⟩ [] rfl,
   c3_removal_amended.2.2 [] ⟨some "a", [sampleReq "a" "/page#sec"]⟩ "a" "hash-change"
     "/page#sec" none none ⟨some "a", [sampleReq "a" "/page#sec"]⟩
     [Effect.setHash "sec"] rfl rfl⟩

/-- C4 counterexample: with a null target selector and a primary region
carrying `pjax-id="X"`, reconciliation resolves the selector
`[pjax-id="X"]` while the swap hands the transition runner the plain
`main` selector — the two are not equal. -/
theorem c4_selector_mismatch :
    resolveReconcile [⟨"main", some "X", "OLD"⟩] (sampleReq "a" "/a")
        = Except.ok (Selector.pjaxId "X", some ⟨"main", some "X", "OLD"⟩)
    ∧ resolveSwapSelector (sampleReq "a" "/a") = Selector.main
    ∧ Selector.pjaxId "X" ≠ Selector.main
    ∧ swapPjaxContent ⟨some "a",
        [{ sampleReq "a" "/a" with body := some "NEW", title := some "T" }]⟩ "a"
      = Except.ok (⟨some "a", []⟩,
          [Effect.endPageTransition,
           Effect.transition Selector.main (some "NEW") none none]) :=
  ⟨rfl, rfl, by decide, rfl⟩

/-- C4 amended: for a null target selector the swap-time selector is
always the bare `main` selector; it equals the selector resolved during
reconciliation exactly when the current primary content region carries
no `pjax-id`, and differs from it whenever a region id is present. -/
theorem c4_swap_selector_amended :
    ∀ (doc : List Element) (req : NavigaitonRequest) (cm : Element),
    req.targetSelector = none →
    querySelector doc Selector.main = some cm →
    resolveSwapSelector req = Selector.main
    ∧ resolveReconcile doc req
        = Except.ok ((match cm.pjaxId with
            | some x => Selector.pjaxId x
            | none => Selector.main), some cm)
    ∧ (resolveReconcile doc req = Except.ok (resolveSwapSelector req, some cm)
        ↔ cm.pjaxId = none) := by
  intro doc req cm htgt hq
  have hs : resolveSwapSelector req = Selector.main := by
    simp [resolveSwapSelector, htgt]
  refine ⟨hs, ?_, ?_⟩
  · simp only [resolveReconcile, htgt, hq]
    cases hp : cm.pjaxId with
    | some x => rfl
    | none => rfl
  · rw [hs]
    cases hp : cm.pjaxId with
    | some x =>
      constructor
      · intro hcontra
        simp only [resolveReconcile, htgt, hq, hp] at hcontra
        simp at hcontra
      · intro hnone
        exact Option.noConfusion hnone
    | none =>
      constructor
      · intro _
        rfl
      · intro _
        simp only [resolveReconcile, htgt, hq, hp]

/-- C4 amended witness: the amended statement at a concrete document
whose primary region carries no `pjax-id`. -/
theorem c4_swap_selector_amended_witness :
    resolveSwapSelector (sampleReq "a" "/a") = Selector.main
    ∧ resolveReconcile [⟨"main", none, "OLD"⟩] (sampleReq "a" "/a")
        = Except.ok ((match (⟨"main", none, "OLD"⟩ : Element).pjaxId with
            | some x => Selector.pjaxId x
            | none => Selector.main), some ⟨"main", none, "OLD"⟩)
    ∧ (resolveReconcile [⟨"main", none, "OLD"⟩] (sampleReq "a" "/a")
        = Except.ok (resolveSwapSelector (sampleReq "a" "/a"), some ⟨"main", none, "OLD"⟩)
        ↔ (⟨"main", none, "OLD"⟩ : Element).pjaxId = none) :=
  c4_swap_selector_amended [⟨"main", none, "OLD"⟩] (sampleReq "a" "/a")
    ⟨"main", none, "OLD"⟩ rfl rfl

/-- C5: calling `collectLinks` any number of times N ≥ 1 on an
unchanged document attaches exactly one click interceptor to each
eligible anchor (and marks it tracked), and leaves every ineligible
anchor — including already-tracked ones — completely unchanged. -/
theorem c5_collect_links_idempotent : ∀ (d : List Anchor) (n : Nat), 1 ≤ n →
    (collectLinks^[n] d).length = d.length ∧
    ∀ (i : Nat) (hi : i < d.length) (hi2 : i < (collectLinks^[n] d).length),
      (anchorEligible (d.get ⟨i, hi⟩) = true →
         ((collectLinks^[n] d).get ⟨i, hi2⟩).pjaxTracked = true ∧
         ((collectLinks^[n] d).get ⟨i, hi2⟩).clickListeners
           = (d.get ⟨i, hi⟩).clickListeners + 1)
      ∧ (anchorEligible (d.get ⟨i, hi⟩) = false →
         (collectLinks^[n] d).get ⟨i, hi2⟩ = d.get ⟨i, hi⟩) := by
  intro d n hn
  rw [collectLinks_iterate d n hn]
  constructor
  · simp [collectLinks]
  · intro i hi hi2
    have hget : (collectLinks d).get ⟨i, hi2⟩ = trackAnchor (d.get ⟨i, hi⟩) := by
      simp [collectLinks, List.get_eq_getElem]
    rw [hget]
    constructor
    · intro he
      unfold trackAnchor
      rw [if_pos he]
      exact ⟨rfl, rfl⟩
    · intro he
      unfold trackAnchor
      rw [if_neg (by rw [he]; exact Bool.false_ne_true)]

/-- C5 witness: two `collectLinks` passes over a document with one
eligible anchor. -/
theorem c5_collect_links_idempotent_witness :
    1 ≤ 2 ∧
    ((collectLinks^[2] [sampleAnchor]).length = [sampleAnchor].length ∧
     ∀ (i : Nat) (hi : i < [sampleAnchor].length)
       (hi2 : i < (collectLinks^[2] [sampleAnchor]).length),
       (anchorEligible ([sampleAnchor].get ⟨i, hi⟩) = true →
          ((collectLinks^[2] [sampleAnchor]).get ⟨i, hi2⟩).pjaxTracked = true ∧
          ((collectLinks^[2] [sampleAnchor]).get ⟨i, hi2⟩).clickListeners
            = ([sampleAnchor].get ⟨i, hi⟩).clickListeners + 1)
       ∧ (anchorEligible ([sampleAnchor].get ⟨i, hi⟩) = false →
          (collectLinks^[2] [sampleAnchor]).get ⟨i, hi2⟩ = [sampleAnchor].get ⟨i, hi⟩)) :=
  ⟨by decide, c5_collect_links_idempotent [sampleAnchor] 2 (by decide)⟩

/-- C6: for an active `ok` reply, once the region selector resolves
against the current document, the pipeline proceeds — body and title
stored on the request and the `parse` notification emitted — whenever
the incoming document has a matching element, and degrades to a logged
error plus a full browser navigation whenever the incoming document
lacks one. -/
theorem c6_region_resolution : ∀ (doc : List Element) (st : PjaxState)
    (rid url : String) (tempDoc : HTMLDoc) (err : Option String)
    (req : NavigaitonRequest) (sel : Selector) (cm : Element),
    some rid = st.activeRequestUid →
    getNavigaitonRequest st.navigationRequestQueue rid = some req →
    resolveReconcile doc req = Except.ok (sel, some cm) →
    ((∀ im, querySelector tempDoc.elements sel = some im →
        handlePjaxResponse doc st rid "ok" url (some tempDoc) err
          = Except.ok
              ({ st with navigationRequestQueue :=
                  (setRequestBodyTitle st.navigationRequestQueue rid im.innerHTML
                    tempDoc.title) },
               [Effect.parseMessage im.innerHTML rid]))
     ∧ (querySelector tempDoc.elements sel = none →
        handlePjaxResponse doc st rid "ok" url (some tempDoc) err
          = Except.ok (st, [Effect.logError "Failed to find matching elements.",
                            Effect.fullNavigation url]))) := by
  intro doc st rid url tempDoc err req sel cm hac hget hres
  constructor
  · intro im him
    simp only [handlePjaxResponse, if_pos hac,
      if_neg (show ¬ ("ok" = "external") by decide),
      if_neg (show ¬ ("ok" = "hash-change") by decide),
      if_pos (show ("ok" = "ok") from rfl), if_pos True.intro,
      Option.getD, hget, hres, him]
  · intro hnone
    simp only [handlePjaxResponse, if_pos hac,
      if_neg (show ¬ ("ok" = "external") by decide),
      if_neg (show ¬ ("ok" = "hash-change") by decide),
      if_pos (show ("ok" = "ok") from rfl), if_pos True.intro,
      Option.getD, hget, hres, hnone]

/-- C6 witness: both branches at concrete documents — an incoming
document containing `main` (pipeline proceeds) is exercised through
the first branch. -/
theorem c6_region_resolution_witness :
    handlePjaxResponse [⟨"main", none, "OLD"⟩] ⟨some "a", [sampleReq "a" "/a"]⟩ "a" "ok"
        "/a" (some ⟨"New Title", [⟨"main", none, "NEW"⟩]⟩) none
      = Except.ok
          (⟨some "a",
            [{ sampleReq "a" "/a" with body := some "NEW", title := some "New Title" }]⟩,
           [Effect.parseMessage "NEW" "a"]) :=
  (c6_region_resolution [⟨"main", none, "OLD"⟩] ⟨some "a", [sampleReq "a" "/a"]⟩ "a" "/a"
      ⟨"New Title", [⟨"main", none, "NEW"⟩]⟩ none (sampleReq "a" "/a") Selector.main
      ⟨"main", none, "OLD"⟩ rfl rfl rfl).1 ⟨"main", none, "NEW"⟩ rfl

/-- C7: committing history with mode `replace` uses `replaceState` and
never changes the history stack length, committing with `push` uses
`pushState` and always grows it by one, and in both modes the stored
state object records the URL. -/
theorem c7_update_history : ∀ (hist : List HistoryEntry) (title url : String),
    hist ≠ [] →
    (updateHistory hist title url HistoryMode.replace).length = hist.length
    ∧ (updateHistory hist title url HistoryMode.push).length = hist.length + 1
    ∧ ∀ mode, (updateHistory hist title url mode).head?.map (fun e => e.stateUrl)
        = some url := by
  intro hist title url hne
  refine ⟨?_, ?_, ?_⟩
  · cases hist with
    | nil => exact absurd rfl hne
    | cons a rest => simp [updateHistory]
  · simp [updateHistory]
  · intro mode
    cases mode <;> simp [updateHistory]

/-- C7 witness: both history modes applied on a one-entry stack. -/
theorem c7_update_history_witness :
    (updateHistory [⟨"/a", "A", "/a"⟩] "B" "/b" HistoryMode.replace).length
        = [(⟨"/a", "A", "/a"⟩ : HistoryEntry)].length
    ∧ (updateHistory [⟨"/a", "A", "/a"⟩] "B" "/b" HistoryMode.push).length
        = [(⟨"/a", "A", "/a"⟩ : HistoryEntry)].length + 1
    ∧ ∀ mode, (updateHistory [⟨"/a", "A", "/a"⟩] "B" "/b" mode).head?.map
        (fun e => e.stateUrl) = some "/b" :=
  c7_update_history [⟨"/a", "A", "/a"⟩] "B" "/b" (by decide)

/-- C8: on a `cachebust` message, when the stored prompt counter has
reached the advertised maximum it is reset to zero and a
`clear-content-cache` directive is issued by that branch; when it is
below the maximum the counter is unchanged and the only directives
issued are those of the independent cache-timestamp branch. -/
theorem c8_cachebust_prompt : ∀ (st : CachebustState) (maxCount expires now : Nat),
    (st.prompts ≥ maxCount →
       (handleCachebust st maxCount expires now).1.prompts = 0
       ∧ (handleCachebust st maxCount expires now).2
           = SWDirective.clearContentCache
               :: (cachebustCachePhase st.contentCache now expires).2)
    ∧ (st.prompts < maxCount →
       (handleCachebust st maxCount expires now).1.prompts = st.prompts
       ∧ (handleCachebust st maxCount expires now).2
           = (cachebustCachePhase st.contentCache now expires).2) := by
  intro st maxCount expires now
  constructor
  · intro h
    simp [handleCachebust, cachebustPromptPhase, if_pos h]
  · intro h
    have h2 : ¬ st.prompts ≥ maxCount := Nat.not_le.mpr h
    simp [handleCachebust, cachebustPromptPhase, if_neg h2]

/-- C8 witness: a counter at the maximum (resets and issues the
directive) and a counter below it (unchanged, cache branch only). -/
theorem c8_cachebust_prompt_witness :
    ((handleCachebust ⟨3, 0, 100⟩ 3 7 200).1.prompts = 0
     ∧ (handleCachebust ⟨3, 0, 100⟩ 3 7 200).2
         = SWDirective.clearContentCache :: (cachebustCachePhase 100 200 7).2)
    ∧ ((handleCachebust ⟨2, 0, 100⟩ 3 7 200).1.prompts = 2
     ∧ (handleCachebust ⟨2, 0, 100⟩ 3 7 200).2 = (cachebustCachePhase 100 200 7).2) :=
  ⟨(c8_cachebust_prompt ⟨3, 0, 100⟩ 3 7 200).1 (by decide),
   (c8_cachebust_prompt ⟨2, 0, 100⟩ 3 7 200).2 (by decide)⟩

/-- C9: `prefetchLinks` sends no prefetch message at all — and observes
nothing — on `2g` or `slow-2g` connections, without a service worker,
or under data saver; and the viewport-intersection deferred prefetch
runs only on `4g`: on any other connection nothing is observed. -/
theorem c9_prefetch_gating : ∀ (env : PrefetchEnv) (links : List PrefetchLink),
    ((env.connection = NetworkType.g2 ∨ env.connection = NetworkType.slow2g ∨
        env.hasServiceWorker = false ∨ env.dataSaver = true) →
       (prefetchLinks env links).messages = []
       ∧ (prefetchLinks env links).observed = [])
    ∧ (env.connection ≠ NetworkType.g4 → (prefetchLinks env links).observed = []) := by
  intro env links
  constructor
  · intro h
    unfold prefetchLinks
    rw [if_pos h]
    exact ⟨rfl, rfl⟩
  · intro h
    by_cases hg : env.connection = NetworkType.g2 ∨ env.connection = NetworkType.slow2g ∨
        env.hasServiceWorker = false ∨ env.dataSaver = true
    · unfold prefetchLinks
      rw [if_pos hg]
    · cases hcon : env.connection with
      | g4 => exact absurd hcon h
      | g3 =>
        unfold prefetchLinks
        rw [if_neg hg]
        simp [hcon]
      | g2 => exact absurd (Or.inl hcon) hg
      | slow2g => exact absurd (Or.inr (Or.inl hcon)) hg

/-- C9 witness: full suppression on a `2g` connection and no viewport
observation on `3g`. -/
theorem c9_prefetch_gating_witness :
    ((prefetchLinks ⟨NetworkType.g2, false, true⟩ [sampleLink]).messages = []
     ∧ (prefetchLinks ⟨NetworkType.g2, false, true⟩ [sampleLink]).observed = [])
    ∧ (prefetchLinks ⟨NetworkType.g3, false, true⟩ [sampleLink]).observed = [] :=
  ⟨(c9_prefetch_gating ⟨NetworkType.g2, false, true⟩ [sampleLink]).1 (Or.inl rfl),
   (c9_prefetch_gating ⟨NetworkType.g3, false, true⟩ [sampleLink]).2 (by decide)⟩

end DjinnJS
